import Mathlib

/-!
Verification of the oqtopus `ModuleWidget` behaviour (oqtopus/gui/module_widget.py)
and of the parameter dialog code (oqtopus/gui/upgrade_dialog.py,
oqtopus/gui/parameters_groupbox.py, oqtopus/gui/parameter_widget.py).

The Python code is shallowly embedded: the widget state touched by each handler
is a Lean structure, each handler is a pure function on that structure, and the
database reads issued by a handler are recorded as an explicit event trace.
Versions are modelled as strings, compared lexicographically exactly as Python
compares the values returned by `last_version()` and `baseline()` with the
`>` and `==` operators.
-/

namespace Oqtopus

/-- Version values as compared by the widget: Python strings under the
lexicographic order (Mathlib provides the linear order on `String`). -/
abbrev Version := String

/-- Relevant fields of the loaded PUM configuration as read by module_widget.py:
`config.pum.module` (the module id), `last_version()` (the highest version of
the loaded definition) and the configured uninstall hook list
`config.uninstall` (an absent or null list is modelled as `[]`, matching the
Python truthiness test `not self.__pum_config.config.uninstall`). -/
structure PumConfigModel where
  module : String
  last_version : Version
  uninstall : List String
  deriving Repr, DecidableEq

/-- Relevant fields of the persisted migration ledger row, as returned by
`SchemaMigrations.migration_details` / `migration_summary`: the recorded module
id (nullable), the `beta_testing` flag (an absent key yields `False` through
`dict.get("beta_testing", False)`), and the installed baseline version. -/
structure MigrationRecord where
  module : Option String
  beta_testing : Bool
  baseline : Version
  deriving Repr, DecidableEq

/-- Pages of the `moduleInfo_stackedWidget`. -/
inductive ModulePage
  | install
  | upgrade
  | maintain
  deriving Repr, DecidableEq

/-- The widget state read and written by `__updateModuleInfo` and the page-show
helpers: current stacked-widget page, visibility/enabled flags of the stacked
widget, the enabled state of every maintenance button and of the two uninstall
buttons, and whether the maintain-page info label carries the warning style
used by the version-mismatch state. -/
structure ModuleUIState where
  page : ModulePage
  stackedVisible : Bool
  stackedEnabled : Bool
  dropAppEnabled : Bool
  recreateAppEnabled : Bool
  rolesEnabled : Bool
  uninstallMaintainEnabled : Bool
  uninstallEnabled : Bool
  upgradeEnabled : Bool
  rolesUpgradeCheckBoxEnabled : Bool
  maintainLabelWarningStyle : Bool
  deriving Repr, DecidableEq

/-- Initial widget state (all pages hidden, everything disabled), used as the
concrete starting state in witnesses. -/
def uiInit : ModuleUIState :=
  { page := ModulePage.install
    stackedVisible := false
    stackedEnabled := false
    dropAppEnabled := false
    recreateAppEnabled := false
    rolesEnabled := false
    uninstallMaintainEnabled := false
    uninstallEnabled := false
    upgradeEnabled := false
    rolesUpgradeCheckBoxEnabled := false
    maintainLabelWarningStyle := false }

/-- Embedding of `__configure_uninstall_button` (module_widget.py lines
914 to 922): both uninstall buttons are set enabled exactly when the loaded
config defines a non-empty uninstall hook list (with the config loaded,
`bool(cfg and cfg.config.uninstall and len(cfg.config.uninstall) > 0)` equals
the non-emptiness of the list). -/
def configure_uninstall_button (cfg : PumConfigModel) (ui : ModuleUIState) :
    ModuleUIState :=
  let has_uninstall := decide (cfg.uninstall ≠ [])
  { ui with
    uninstallEnabled := has_uninstall
    uninstallMaintainEnabled := has_uninstall }

/-- Embedding of `__show_install_page` (lines 676 to 695): switches to the
install page and makes the stacked widget visible. -/
def show_install_page (ui : ModuleUIState) : ModuleUIState :=
  { ui with page := ModulePage.install, stackedVisible := true }

/-- Embedding of `__show_upgrade_page` (lines 821 to 851): switches to the
upgrade page, makes the stacked widget visible and enables the upgrade
controls. It does not touch the maintenance buttons. -/
def show_upgrade_page (ui : ModuleUIState) : ModuleUIState :=
  { ui with
    page := ModulePage.upgrade
    stackedVisible := true
    upgradeEnabled := true
    rolesUpgradeCheckBoxEnabled := true }

/-- Embedding of `__show_maintain_page` (lines 853 to 877): applies the plain
(non-warning) style to the maintain info label, enables all maintenance
buttons — including, unconditionally, the maintain-page uninstall button —
and switches to the maintain page. -/
def show_maintain_page (ui : ModuleUIState) : ModuleUIState :=
  { ui with
    maintainLabelWarningStyle := false
    dropAppEnabled := true
    recreateAppEnabled := true
    rolesEnabled := true
    uninstallMaintainEnabled := true
    page := ModulePage.maintain
    stackedVisible := true }

/-- Embedding of `__show_version_mismatch_page` (lines 879 to 912): applies the
warning style to the maintain info label, disables the drop-app, recreate-app,
roles and maintain-page uninstall buttons, and switches to the maintain page. -/
def show_version_mismatch_page (ui : ModuleUIState) : ModuleUIState :=
  { ui with
    maintainLabelWarningStyle := true
    dropAppEnabled := false
    recreateAppEnabled := false
    rolesEnabled := false
    uninstallMaintainEnabled := false
    page := ModulePage.maintain
    stackedVisible := true }

/-- Embedding of `__updateModuleInfo` (lines 924 to 997) on the path where a
module package, a database connection and a PUM config are all present: the
ledger argument is `some r` when `SchemaMigrations.exists` holds (with `r` the
ledger row) and `none` otherwise. The handler enables the stacked widget,
configures the uninstall buttons, and then dispatches on the comparison of
`target_version = cfg.last_version()` with the installed baseline. -/
def updateModuleInfo (cfg : PumConfigModel) (ledger : Option MigrationRecord)
    (ui : ModuleUIState) : ModuleUIState :=
  let target := cfg.last_version
  let ui1 := { ui with stackedEnabled := true }
  let ui2 := configure_uninstall_button cfg ui1
  match ledger with
  | some r =>
      if target > r.baseline then show_upgrade_page ui2
      else if target = r.baseline then show_maintain_page ui2
      else show_version_mismatch_page ui2
  | none => show_install_page ui2

/-- C1: for every loaded config and installed module, `__updateModuleInfo`
dispatches on the three-way comparison of the target version against the
installed baseline: target greater shows the upgrade page; target equal shows
the maintain page with the plain label style; target smaller shows the
maintain page in the version-mismatch state (warning style) with the drop-app,
recreate-app, roles and uninstall maintenance actions all disabled. -/
theorem updateModuleInfo_three_way_comparison (cfg : PumConfigModel)
    (r : MigrationRecord) (ui : ModuleUIState) :
    (r.baseline < cfg.last_version →
      (updateModuleInfo cfg (some r) ui).page = ModulePage.upgrade) ∧
    (cfg.last_version = r.baseline →
      (updateModuleInfo cfg (some r) ui).page = ModulePage.maintain ∧
      (updateModuleInfo cfg (some r) ui).maintainLabelWarningStyle = false) ∧
    (cfg.last_version < r.baseline →
      (updateModuleInfo cfg (some r) ui).page = ModulePage.maintain ∧
      (updateModuleInfo cfg (some r) ui).maintainLabelWarningStyle = true ∧
      (updateModuleInfo cfg (some r) ui).dropAppEnabled = false ∧
      (updateModuleInfo cfg (some r) ui).recreateAppEnabled = false ∧
      (updateModuleInfo cfg (some r) ui).rolesEnabled = false ∧
      (updateModuleInfo cfg (some r) ui).uninstallMaintainEnabled = false) := by
  refine ⟨?_, ?_, ?_⟩
  · intro h
    simp [updateModuleInfo, GT.gt, h, show_upgrade_page]
  · intro h
    have hnl : ¬ r.baseline < cfg.last_version := by
      simp [h]
    simp [updateModuleInfo, GT.gt, hnl, h, show_maintain_page]
  · intro h
    have hnl : ¬ r.baseline < cfg.last_version := lt_asymm h
    have hne : cfg.last_version ≠ r.baseline := ne_of_lt h
    simp [updateModuleInfo, GT.gt, hnl, hne, show_version_mismatch_page]

/-- Witness for C1 at concrete inputs: with target "1.4.0" and baseline
"1.5.0" (selected older than installed) the maintain page is shown in the
version-mismatch state with all four maintenance actions disabled, and with
target "1.5.0" equal to the baseline the maintain page is shown plainly. -/
theorem updateModuleInfo_three_way_comparison_witness :
    ((updateModuleInfo ⟨"m", "1.4.0", ["u.sql"]⟩
        (some ⟨some "m", false, "1.5.0"⟩) uiInit).page = ModulePage.maintain ∧
      (updateModuleInfo ⟨"m", "1.4.0", ["u.sql"]⟩
        (some ⟨some "m", false, "1.5.0"⟩) uiInit).maintainLabelWarningStyle = true ∧
      (updateModuleInfo ⟨"m", "1.4.0", ["u.sql"]⟩
        (some ⟨some "m", false, "1.5.0"⟩) uiInit).dropAppEnabled = false ∧
      (updateModuleInfo ⟨"m", "1.4.0", ["u.sql"]⟩
        (some ⟨some "m", false, "1.5.0"⟩) uiInit).recreateAppEnabled = false ∧
      (updateModuleInfo ⟨"m", "1.4.0", ["u.sql"]⟩
        (some ⟨some "m", false, "1.5.0"⟩) uiInit).rolesEnabled = false ∧
      (updateModuleInfo ⟨"m", "1.4.0", ["u.sql"]⟩
        (some ⟨some "m", false, "1.5.0"⟩) uiInit).uninstallMaintainEnabled = false) ∧
    (updateModuleInfo ⟨"m", "1.5.0", ["u.sql"]⟩
        (some ⟨some "m", false, "1.5.0"⟩) uiInit).page = ModulePage.maintain := by
  constructor
  · exact (updateModuleInfo_three_way_comparison ⟨"m", "1.4.0", ["u.sql"]⟩
      ⟨some "m", false, "1.5.0"⟩ uiInit).2.2
      (by rw [String.lt_iff_toList_lt]; decide)
  · exact ((updateModuleInfo_three_way_comparison ⟨"m", "1.5.0", ["u.sql"]⟩
      ⟨some "m", false, "1.5.0"⟩ uiInit).2.1 rfl).1

/-- Database events issued by the widget handlers: opening and closing of a
`with connection.transaction()` block, and the four ledger reads performed
through `SchemaMigrations` (`exists`, `baseline`, `migration_details`,
`migration_summary`). -/
inductive DbEvent
  | txBegin
  | txEnd
  | readExists
  | readBaseline
  | readDetails
  | readSummary
  deriving Repr, DecidableEq

/-- Annotates every event of a trace with the transaction nesting depth at
which it occurs (a read annotated with depth 0 runs on the bare connection,
outside any transaction block). -/
def txDepths : List DbEvent → Nat → List (DbEvent × Nat)
  | [], _ => []
  | DbEvent.txBegin :: es, d => (DbEvent.txBegin, d) :: txDepths es (d + 1)
  | DbEvent.txEnd :: es, d => (DbEvent.txEnd, d - 1) :: txDepths es (d - 1)
  | e :: es, d => (e, d) :: txDepths es d

/-- Whether an event is a ledger read. -/
def isLedgerRead : DbEvent → Bool
  | DbEvent.readExists => true
  | DbEvent.readBaseline => true
  | DbEvent.readDetails => true
  | DbEvent.readSummary => true
  | _ => false

/-- Whether every ledger read of a trace occurs at a positive transaction
depth, i.e. inside a transaction block. -/
def readsInTransaction (es : List DbEvent) : Bool :=
  (txDepths es 0).all fun p => !(isLedgerRead p.1) || decide (0 < p.2)

/-- Embedding of the database events issued by `__updateModuleInfo` (lines
944 to 997): one `with connection.transaction()` block wraps the `exists`
check and, when the ledger exists, the `baseline` and `migration_summary`
reads. -/
def updateModuleInfo_dbEvents (ledgerExists : Bool) : List DbEvent :=
  [DbEvent.txBegin, DbEvent.readExists] ++
    (if ledgerExists then [DbEvent.readBaseline, DbEvent.readSummary] else []) ++
    [DbEvent.txEnd]

/-- Embedding of the database events issued by `__upgradeModuleClicked` (lines
362 to 398) up to the point where the background operation would start: one
`with connection.transaction()` block wraps the `exists` check and, when the
ledger exists, the `migration_details` read. -/
def upgradeModuleClicked_dbEvents (ledgerExists : Bool) : List DbEvent :=
  [DbEvent.txBegin, DbEvent.readExists] ++
    (if ledgerExists then [DbEvent.readDetails] else []) ++
    [DbEvent.txEnd]

/-- Outcomes of `__uninstallModuleClicked`. Only `started` launches the
background uninstall operation. -/
inductive UninstallResult
  | errorNoUninstall
  | errorNotInstalled
  | abortUserDeclined
  | started
  deriving Repr, DecidableEq

/-- Inputs of `__uninstallModuleClicked` on the path where a module package,
a database connection and a PUM config are present: the configured uninstall
hook list, whether the ledger row exists, the installed baseline and the
selected version, and the user reply to the confirmation dialog. -/
structure UninstallClickInput where
  uninstall_hooks : List String
  ledgerExists : Bool
  installed_version : Version
  selected_version : Version
  confirm : Bool
  deriving Repr, DecidableEq

/-- Result of `__uninstallModuleClicked`: the outcome, whether the
confirmation dialog text carried the version-mismatch warning, and the trace
of database events the handler issued. -/
structure UninstallOutcome where
  result : UninstallResult
  warnVersionMismatch : Bool
  events : List DbEvent
  deriving Repr, DecidableEq

/-- Embedding of `__uninstallModuleClicked` (lines 439 to 512). The handler
first rejects a config without uninstall hooks, before touching the database.
Otherwise it opens a `with connection.transaction()` block that contains only
the `exists` check (lines 473 to 475); the `baseline` read on line 476 is
issued after the block has closed, on the bare connection. The version
warning is included in the confirmation text when the installed version
differs from the selected one, and the operation starts only on a Yes
reply. -/
def uninstallModuleClicked (inp : UninstallClickInput) : UninstallOutcome :=
  if inp.uninstall_hooks = [] then
    ⟨UninstallResult.errorNoUninstall, false, []⟩
  else if ¬ inp.ledgerExists then
    ⟨UninstallResult.errorNotInstalled, false,
      [DbEvent.txBegin, DbEvent.readExists, DbEvent.txEnd]⟩
  else
    let evts := [DbEvent.txBegin, DbEvent.readExists, DbEvent.txEnd,
      DbEvent.readBaseline]
    let warn := decide (inp.installed_version ≠ inp.selected_version)
    if ¬ inp.confirm then ⟨UninstallResult.abortUserDeclined, warn, evts⟩
    else ⟨UninstallResult.started, warn, evts⟩

/-- Concrete failing input for the transaction claim: an uninstall click with
uninstall hooks configured, the module installed, matching versions and a
confirming user. -/
def uninstallInputInstalled : UninstallClickInput :=
  { uninstall_hooks := ["uninstall.sql"]
    ledgerExists := true
    installed_version := "1.5.0"
    selected_version := "1.5.0"
    confirm := true }

/-- C2: the claim that every ledger read of the widget runs inside a
transaction block fails on `__uninstallModuleClicked`: on the installed path
its `baseline` read occurs at transaction depth 0 (outside any transaction
block), while the reads of `__updateModuleInfo` and `__upgradeModuleClicked`
are indeed all inside a transaction block. -/
theorem uninstall_baseline_read_outside_transaction :
    readsInTransaction (uninstallModuleClicked uninstallInputInstalled).events
      = false ∧
    (DbEvent.readBaseline, 0) ∈
      txDepths (uninstallModuleClicked uninstallInputInstalled).events 0 ∧
    (∀ b : Bool, readsInTransaction (updateModuleInfo_dbEvents b) = true) ∧
    (∀ b : Bool, readsInTransaction (upgradeModuleClicked_dbEvents b) = true) := by
  refine ⟨?_, ?_, ?_, ?_⟩
  · rfl
  · simp [uninstallModuleClicked, uninstallInputInstalled, txDepths]
  · intro b; cases b <;> rfl
  · intro b; cases b <;> rfl

/-- Options dictionary handed to the background upgrade operation
(module_widget.py lines 425 to 430). -/
structure UpgradeOptions where
  beta_testing : Bool
  force : Bool
  roles : Bool
  grant : Bool
  deriving Repr, DecidableEq

/-- Inputs of `__upgradeModuleClicked` on the path where a module package, a
database connection and a PUM config are present: the module id recorded in
the PUM config (`config.pum.module`), the id of the selected module package,
the ledger row (`none` when `SchemaMigrations.exists` is false), the state of
the upgrade-page beta-testing and roles checkboxes, and the user replies to
the two confirmation dialogs (`confirm_installed_beta` for the Confirm
Upgrade question shown when the installed record is in beta testing,
`confirm_beta_warning` for the Beta Testing Upgrade warning shown when the
checkbox is checked). -/
structure UpgradeClickInput where
  pum_module : String
  selected_module : String
  ledger : Option MigrationRecord
  beta_checkbox : Bool
  roles_checkbox : Bool
  confirm_installed_beta : Bool
  confirm_beta_warning : Bool
  deriving Repr, DecidableEq

/-- Outcomes of `__upgradeModuleClicked`. Only `started` launches the
background upgrade operation; every other outcome returns before
`__startOperation`, so no migration is applied and no ledger row changes. -/
inductive UpgradeResult
  | errorSelectedMismatch
  | errorInstalledMismatch
  | abortInstalledBeta
  | abortBetaWarning
  | started (options : UpgradeOptions)
  deriving Repr, DecidableEq

/-- Embedding of `__upgradeModuleClicked` (lines 329 to 437). In source
order: the config module id is compared with the selected module id; then,
when the ledger exists, a recorded module id that is non-null and different
from the config id raises the installed-mismatch error, and an installed
record in beta testing asks for confirmation; then a checked beta-testing
checkbox asks for its own confirmation; finally the operation is started with
`force` set to the installed record beta flag (`installed_beta_testing` stays
`False` when no ledger row exists). -/
def upgradeModuleClicked (inp : UpgradeClickInput) : UpgradeResult :=
  if inp.pum_module ≠ inp.selected_module then
    UpgradeResult.errorSelectedMismatch
  else
    let installed_beta :=
      match inp.ledger with
      | some r => r.beta_testing
      | none => false
    let installed_mismatch :=
      match inp.ledger with
      | some r =>
          match r.module with
          | some m => decide (m ≠ inp.pum_module)
          | none => false
      | none => false
    if installed_mismatch then UpgradeResult.errorInstalledMismatch
    else if installed_beta && !inp.confirm_installed_beta then
      UpgradeResult.abortInstalledBeta
    else if inp.beta_checkbox && !inp.confirm_beta_warning then
      UpgradeResult.abortBetaWarning
    else
      UpgradeResult.started
        { beta_testing := inp.beta_checkbox
          force := installed_beta
          roles := inp.roles_checkbox
          grant := inp.roles_checkbox }

/-- C3: whenever the upgrade click starts the background operation on a
database with an installed ledger row, the `force` option it passes equals
the installed record beta-testing flag; and when that flag is set, the
operation can only have started after the user confirmed the Confirm Upgrade
question. -/
theorem upgrade_force_equals_installed_beta (inp : UpgradeClickInput)
    (r : MigrationRecord) (opts : UpgradeOptions)
    (hl : inp.ledger = some r)
    (hs : upgradeModuleClicked inp = UpgradeResult.started opts) :
    opts.force = r.beta_testing ∧
      (r.beta_testing = true → inp.confirm_installed_beta = true) := by
  unfold upgradeModuleClicked at hs
  rw [hl] at hs
  by_cases h1 : inp.pum_module ≠ inp.selected_module
  · simp [h1] at hs
  · simp only [h1, if_false, if_neg] at hs
    split at hs
    · exact absurd hs (by simp)
    · split at hs
      · exact absurd hs (by simp)
      · split at hs
        · exact absurd hs (by simp)
        · rename_i hbeta _
          constructor
          · have := congrArg (fun x =>
              match x with
              | UpgradeResult.started o => o.force
              | _ => false) hs
            simpa using this.symm
          · intro htrue
            by_contra hc
            rw [Bool.not_eq_true] at hc
            simp [htrue, hc] at hbeta

/-- Witness for C3: a concrete upgrade click on an installed beta-testing
record, with both confirmations given, starts the operation with
`force = true`. -/
theorem upgrade_force_equals_installed_beta_witness :
    upgradeModuleClicked
        { pum_module := "m"
          selected_module := "m"
          ledger := some ⟨some "m", true, "1.0.0"⟩
          beta_checkbox := false
          roles_checkbox := true
          confirm_installed_beta := true
          confirm_beta_warning := false }
      = UpgradeResult.started
          { beta_testing := false, force := true, roles := true, grant := true } ∧
    (UpgradeOptions.mk false true true true).force = true ∧
    true = true := by
  have hs : upgradeModuleClicked
      { pum_module := "m"
        selected_module := "m"
        ledger := some ⟨some "m", true, "1.0.0"⟩
        beta_checkbox := false
        roles_checkbox := true
        confirm_installed_beta := true
        confirm_beta_warning := false }
    = UpgradeResult.started
        { beta_testing := false, force := true, roles := true, grant := true } := by
    rfl
  have h := upgrade_force_equals_installed_beta _ ⟨some "m", true, "1.0.0"⟩
    { beta_testing := false, force := true, roles := true, grant := true } rfl hs
  exact ⟨hs, h.1.trans rfl, h.2 rfl⟩

/-- C4: whenever the ledger exists with a non-null recorded module id that
differs from the config module id, the upgrade click reports a module
mismatch error (either the selected-package mismatch or the
installed-database mismatch) and never starts the background operation. -/
theorem upgrade_installed_mismatch_no_operation (inp : UpgradeClickInput)
    (r : MigrationRecord) (m : String)
    (hl : inp.ledger = some r) (hm : r.module = some m)
    (hne : m ≠ inp.pum_module) :
    (upgradeModuleClicked inp = UpgradeResult.errorSelectedMismatch ∨
      upgradeModuleClicked inp = UpgradeResult.errorInstalledMismatch) ∧
    ∀ opts : UpgradeOptions,
      upgradeModuleClicked inp ≠ UpgradeResult.started opts := by
  by_cases h1 : inp.pum_module ≠ inp.selected_module
  · simp [upgradeModuleClicked, h1]
  · simp [upgradeModuleClicked, hl, hm, h1, hne]

/-- Witness for C4: a concrete upgrade click where the database records
module id "other" while the config declares "m" yields the installed
mismatch error and starts nothing. -/
theorem upgrade_installed_mismatch_no_operation_witness :
    (upgradeModuleClicked
        { pum_module := "m"
          selected_module := "m"
          ledger := some ⟨some "other", false, "1.0.0"⟩
          beta_checkbox := false
          roles_checkbox := false
          confirm_installed_beta := true
          confirm_beta_warning := true }
      = UpgradeResult.errorSelectedMismatch ∨
      upgradeModuleClicked
        { pum_module := "m"
          selected_module := "m"
          ledger := some ⟨some "other", false, "1.0.0"⟩
          beta_checkbox := false
          roles_checkbox := false
          confirm_installed_beta := true
          confirm_beta_warning := true }
      = UpgradeResult.errorInstalledMismatch) ∧
    ∀ opts : UpgradeOptions,
      upgradeModuleClicked
        { pum_module := "m"
          selected_module := "m"
          ledger := some ⟨some "other", false, "1.0.0"⟩
          beta_checkbox := false
          roles_checkbox := false
          confirm_installed_beta := true
          confirm_beta_warning := true }
      ≠ UpgradeResult.started opts :=
  upgrade_installed_mismatch_no_operation _ ⟨some "other", false, "1.0.0"⟩ "other"
    rfl rfl (by decide)

/-- Concrete config without uninstall hooks, selecting version "1.0.0". -/
def cfgNoUninstall : PumConfigModel :=
  { module := "m", last_version := "1.0.0", uninstall := [] }

/-- Concrete ledger row whose baseline equals the selected version. -/
def recMatching : MigrationRecord :=
  { module := some "m", beta_testing := false, baseline := "1.0.0" }

/-- C5 counterexample: with no uninstall hook configured and the installed
baseline equal to the selected version, `__updateModuleInfo` shows the
maintain page and leaves the maintain-page uninstall button enabled
(`__show_maintain_page` re-enables it unconditionally after
`__configure_uninstall_button` disabled it), so the claimed equivalence
between button state and configured hooks fails. -/
theorem uninstall_button_iff_fails :
    cfgNoUninstall.uninstall = [] ∧
    (updateModuleInfo cfgNoUninstall (some recMatching) uiInit).page
      = ModulePage.maintain ∧
    (updateModuleInfo cfgNoUninstall (some recMatching)
        uiInit).uninstallMaintainEnabled = true := by
  refine ⟨rfl, ?_, ?_⟩ <;>
    simp [updateModuleInfo, cfgNoUninstall, recMatching, GT.gt,
      lt_self_iff_false, configure_uninstall_button, show_maintain_page]

/-- C5 amended: clicking uninstall with an empty (or absent) uninstall hook
list reports the no-uninstall error without touching the database, and
`__configure_uninstall_button` sets both uninstall buttons enabled exactly
when a hook is configured; after `__updateModuleInfo` that equivalence still
holds for the install-page uninstall button and on the upgrade page, but the
maintain-page uninstall button is unconditionally enabled when the maintain
page is shown (target equal to baseline) and unconditionally disabled in the
version-mismatch state (target older than baseline), regardless of hooks. -/
theorem uninstall_buttons_amended (cfg : PumConfigModel) (r : MigrationRecord)
    (ui : ModuleUIState) (inp : UninstallClickInput) :
    (inp.uninstall_hooks = [] →
      (uninstallModuleClicked inp).result = UninstallResult.errorNoUninstall ∧
      (uninstallModuleClicked inp).events = []) ∧
    ((configure_uninstall_button cfg ui).uninstallEnabled
        = decide (cfg.uninstall ≠ []) ∧
      (configure_uninstall_button cfg ui).uninstallMaintainEnabled
        = decide (cfg.uninstall ≠ [])) ∧
    ((updateModuleInfo cfg (some r) ui).uninstallEnabled
        = decide (cfg.uninstall ≠ [])) ∧
    (cfg.last_version = r.baseline →
      (updateModuleInfo cfg (some r) ui).uninstallMaintainEnabled = true) ∧
    (r.baseline < cfg.last_version →
      (updateModuleInfo cfg (some r) ui).uninstallMaintainEnabled
        = decide (cfg.uninstall ≠ [])) ∧
    (cfg.last_version < r.baseline →
      (updateModuleInfo cfg (some r) ui).uninstallMaintainEnabled = false) := by
  refine ⟨?_, ⟨rfl, rfl⟩, ?_, ?_, ?_, ?_⟩
  · intro h
    simp [uninstallModuleClicked, h]
  · rcases lt_trichotomy r.baseline cfg.last_version with h | h | h
    · simp [updateModuleInfo, GT.gt, h, show_upgrade_page,
        configure_uninstall_button]
    · simp [updateModuleInfo, GT.gt, h, lt_self_iff_false, show_maintain_page,
        configure_uninstall_button]
    · have h1 : ¬ r.baseline < cfg.last_version := lt_asymm h
      have h2 : cfg.last_version ≠ r.baseline := ne_of_lt h
      simp [updateModuleInfo, GT.gt, h1, h2, show_version_mismatch_page,
        configure_uninstall_button]
  · intro h
    simp [updateModuleInfo, GT.gt, h, lt_self_iff_false, show_maintain_page,
      configure_uninstall_button]
  · intro h
    simp [updateModuleInfo, GT.gt, h, show_upgrade_page,
      configure_uninstall_button]
  · intro h
    have h1 : ¬ r.baseline < cfg.last_version := lt_asymm h
    have h2 : cfg.last_version ≠ r.baseline := ne_of_lt h
    simp [updateModuleInfo, GT.gt, h1, h2, show_version_mismatch_page,
      configure_uninstall_button]

/-- Witness for the amended C5 at concrete inputs: an uninstall click with no
hooks yields the no-uninstall error with an empty event trace; with equal
versions the maintain uninstall button ends up enabled even though no hook is
configured; with a selected version older than the installed one it ends up
disabled even though hooks exist. -/
theorem uninstall_buttons_amended_witness :
    ((uninstallModuleClicked ⟨[], true, "1.0.0", "1.0.0", true⟩).result
        = UninstallResult.errorNoUninstall ∧
      (uninstallModuleClicked ⟨[], true, "1.0.0", "1.0.0", true⟩).events = []) ∧
    (updateModuleInfo ⟨"m", "1.0.0", []⟩ (some ⟨some "m", false, "1.0.0"⟩)
        uiInit).uninstallMaintainEnabled = true ∧
    (updateModuleInfo ⟨"m", "1.0.0", ["u.sql"]⟩
        (some ⟨some "m", false, "1.1.0"⟩)
        uiInit).uninstallMaintainEnabled = false := by
  refine ⟨?_, ?_, ?_⟩
  · exact (uninstall_buttons_amended ⟨"m", "1.0.0", []⟩
      ⟨some "m", false, "1.0.0"⟩ uiInit ⟨[], true, "1.0.0", "1.0.0", true⟩).1 rfl
  · exact (uninstall_buttons_amended ⟨"m", "1.0.0", []⟩
      ⟨some "m", false, "1.0.0"⟩ uiInit
      ⟨[], true, "1.0.0", "1.0.0", true⟩).2.2.2.1 rfl
  · exact (uninstall_buttons_amended ⟨"m", "1.0.0", ["u.sql"]⟩
      ⟨some "m", false, "1.1.0"⟩ uiInit
      ⟨[], true, "1.0.0", "1.0.0", true⟩).2.2.2.2.2
      (by rw [String.lt_iff_toList_lt]; decide)

/-- The "pum" section of a loaded .pum.yaml mapping, reduced to the field the
widget touches: the optional "module" key. -/
structure PumSection where
  module : Option String
  deriving Repr, DecidableEq

/-- The loaded .pum.yaml mapping, reduced to the optional "pum" section. -/
structure PumYamlData where
  pum : Option PumSection
  deriving Repr, DecidableEq

/-- Embedding of the config-data normalization in
`__packagePrepareGetPUMConfig` (module_widget.py lines 208 to 216): when the
"pum" key is absent an empty section is inserted, and when "module" is absent
inside it the key is set to the id of the currently selected module package;
the resulting mapping is what the `PumConfig` constructor receives. -/
def preparePumConfigData (selected_module_id : String) (cd : PumYamlData) :
    PumYamlData :=
  let sec := cd.pum.getD { module := none }
  let sec2 :=
    if sec.module = none then { sec with module := some selected_module_id }
    else sec
  { cd with pum := some sec2 }

/-- C6: after normalization the "pum" section always exists and carries a
module id, so `PumConfig` is never constructed with an absent module id;
when the key was absent the id is exactly the selected module package id, and
when it was present its value is left unchanged. -/
theorem preparePumConfigData_module_id (selected : String) (cd : PumYamlData) :
    (∃ m, (preparePumConfigData selected cd).pum
        = some { module := some m }) ∧
    (∀ p m, cd.pum = some p → p.module = some m →
      (preparePumConfigData selected cd).pum = some { module := some m }) ∧
    ((cd.pum = none ∨ ∃ p, cd.pum = some p ∧ p.module = none) →
      (preparePumConfigData selected cd).pum
        = some { module := some selected }) := by
  refine ⟨?_, ?_, ?_⟩
  · cases hc : cd.pum with
    | none => exact ⟨selected, by simp [preparePumConfigData, hc]⟩
    | some p =>
        cases hm : p.module with
        | none => exact ⟨selected, by simp [preparePumConfigData, hc, hm]⟩
        | some m =>
            refine ⟨m, ?_⟩
            simp [preparePumConfigData, hc, hm]
            cases p
            simp_all
  · intro p m hc hm
    simp [preparePumConfigData, hc, hm]
    cases p
    simp_all
  · rintro (hc | ⟨p, hc, hm⟩)
    · simp [preparePumConfigData, hc]
    · simp [preparePumConfigData, hc, hm]

/-- Witness for C6 at concrete inputs: a mapping without a "pum" section gets
the selected id, and a mapping already recording module "orig" keeps it. -/
theorem preparePumConfigData_module_id_witness :
    (preparePumConfigData "sel" { pum := none }).pum
      = some { module := some "sel" } ∧
    (preparePumConfigData "sel" { pum := some { module := some "orig" } }).pum
      = some { module := some "orig" } := by
  constructor
  · exact (preparePumConfigData_module_id "sel" { pum := none }).2.2 (Or.inl rfl)
  · exact (preparePumConfigData_module_id "sel"
      { pum := some { module := some "orig" } }).2.1
      { module := some "orig" } "orig" rfl rfl

/-- The progress-bar state touched by `__onOperationProgress`: the format
text, text visibility, and the maximum and current value. Qt integers are
modelled as `Int` (the handler only compares against 0). -/
structure ProgressBarState where
  format : String
  textVisible : Bool
  maximum : Int
  value : Int
  deriving Repr, DecidableEq

/-- Embedding of `__onOperationProgress` (module_widget.py lines 1058 to
1073): with a positive total the bar is configured determinate (maximum is
the total, value is the current count); otherwise it is configured
indeterminate (maximum 0, value 0); in both branches the message becomes the
format text and the text is made visible. -/
def onOperationProgress (message : String) (current total : Int)
    (pb : ProgressBarState) : ProgressBarState :=
  if total > 0 then
    { pb with
      format := message, textVisible := true, maximum := total, value := current }
  else
    { pb with format := message, textVisible := true, maximum := 0, value := 0 }

/-- C7: every progress event sets the message as the format text; a positive
total yields a determinate bar with maximum equal to the total and value
equal to the current count, and a total of zero or less yields the
indeterminate configuration with maximum 0 and value 0. -/
theorem onOperationProgress_configures_bar (message : String)
    (current total : Int) (pb : ProgressBarState) :
    (onOperationProgress message current total pb).format = message ∧
    (onOperationProgress message current total pb).textVisible = true ∧
    (0 < total →
      (onOperationProgress message current total pb).maximum = total ∧
      (onOperationProgress message current total pb).value = current) ∧
    (total ≤ 0 →
      (onOperationProgress message current total pb).maximum = 0 ∧
      (onOperationProgress message current total pb).value = 0) := by
  by_cases h : 0 < total
  · refine ⟨?_, ?_, fun _ => ⟨?_, ?_⟩, fun hle => absurd h (not_lt.mpr hle)⟩ <;>
      simp [onOperationProgress, GT.gt, h]
  · refine ⟨?_, ?_, fun hlt => absurd hlt h, fun _ => ⟨?_, ?_⟩⟩ <;>
      simp [onOperationProgress, GT.gt, h]

/-- Witness for C7 at concrete inputs: total 5 gives a determinate bar with
maximum 5 and value 2; total 0 gives the indeterminate configuration. -/
theorem onOperationProgress_configures_bar_witness :
    (onOperationProgress "step" 2 5 ⟨"", false, 1, 1⟩).maximum = 5 ∧
    (onOperationProgress "step" 2 5 ⟨"", false, 1, 1⟩).value = 2 ∧
    (onOperationProgress "wait" 3 0 ⟨"", false, 1, 1⟩).maximum = 0 ∧
    (onOperationProgress "wait" 3 0 ⟨"", false, 1, 1⟩).value = 0 := by
  have h1 := (onOperationProgress_configures_bar "step" 2 5
    ⟨"", false, 1, 1⟩).2.2.1 (by decide)
  have h2 := (onOperationProgress_configures_bar "wait" 3 0
    ⟨"", false, 1, 1⟩).2.2.2 (by decide)
  exact ⟨h1.1, h1.2, h2.1, h2.2⟩

/-- The state touched by `__cancelOperationClicked`: the cancel button, the
cancellation request to the task, and the single-shot timeout timer with its
interval in milliseconds. -/
structure CancelClickState where
  cancelButtonEnabled : Bool
  cancelButtonText : String
  cancelRequested : Bool
  timeoutTimerActive : Bool
  timeoutTimerMs : Nat
  deriving Repr, DecidableEq

/-- Embedding of `__cancelOperationClicked` (module_widget.py lines 1030 to
1039): disables the cancel button, sets its text, requests cooperative
cancellation, and arms the timeout timer with 5000 milliseconds. -/
def cancelOperationClicked (s : CancelClickState) : CancelClickState :=
  { s with
    cancelButtonEnabled := false
    cancelButtonText := "Canceling..."
    cancelRequested := true
    timeoutTimerActive := true
    timeoutTimerMs := 5000 }

/-- Effects of `__onCancelTimeout`: whether the task was forcefully
terminated, whether the operation UI was reset, and the warning message shown
to the user (none when nothing happened). -/
structure CancelTimeoutEffects where
  terminated : Bool
  uiReset : Bool
  warningMessage : Option String
  deriving Repr, DecidableEq

/-- Warning text shown by `__onCancelTimeout`, verbatim from module_widget.py
lines 1052 to 1055. -/
def cancelTimeoutWarningText : String :=
  "The operation did not respond to the cancel request and was forcefully terminated. The database may be in an inconsistent state. Please verify manually."

/-- Embedding of `__onCancelTimeout` (module_widget.py lines 1041 to 1056):
when the operation task is still running it is terminated, the operation UI
is reset and the warning is shown; when it is no longer running nothing
happens. -/
def onCancelTimeout (taskRunning : Bool) : CancelTimeoutEffects :=
  if taskRunning then
    { terminated := true
      uiReset := true
      warningMessage := some cancelTimeoutWarningText }
  else
    { terminated := false, uiReset := false, warningMessage := none }

/-- C8: a cancel request arms the 5-second (5000 ms) timeout timer; when the
timeout fires with the task still running the task is terminated, the UI is
reset and the warning stating that the operation did not respond to the
cancel request, was forcefully terminated, and that the database may be in an
inconsistent state and should be verified manually is shown; when the task is
no longer running nothing is terminated and no warning is shown. -/
theorem cancel_timeout_behaviour (s : CancelClickState) :
    (cancelOperationClicked s).timeoutTimerActive = true ∧
    (cancelOperationClicked s).timeoutTimerMs = 5000 ∧
    (cancelOperationClicked s).cancelRequested = true ∧
    onCancelTimeout true
      = ⟨true, true, some cancelTimeoutWarningText⟩ ∧
    onCancelTimeout false = ⟨false, false, none⟩ :=
  ⟨rfl, rfl, rfl, rfl, rfl⟩

/-- Methods defined by the `ParametersGroupBox` class in
parameters_groupbox.py (lines 92 to 130): `setParameters`,
`parameters_values`, `setParametersEnabled` and `clean`, plus the instance
attributes assigned in its constructor. -/
def parametersGroupBoxAttrs : List String :=
  ["setParameters", "parameters_values", "setParametersEnabled", "clean",
   "parameter_widgets", "parameters"]

/-- Methods the class inherits from QGroupBox/QWidget that
upgrade_dialog.py uses on it. `setParameterValues` is not among them: Qt
defines no method of that name. -/
def qGroupBoxInheritedAttrs : List String :=
  ["setTitle", "setLayout", "setVisible", "setEnabled", "setSizePolicy",
   "layout", "isChecked"]

/-- Python attribute error, carrying the missing attribute name. -/
structure PyAttributeError where
  attr : String
  deriving Repr, DecidableEq

/-- Attribute lookup on a `ParametersGroupBox` instance: defined attributes
resolve, anything else raises `AttributeError`. -/
def groupBoxCall (attr : String) : Except PyAttributeError Unit :=
  if attr ∈ parametersGroupBoxAttrs ∨ attr ∈ qGroupBoxInheritedAttrs then
    Except.ok ()
  else Except.error { attr := attr }

/-- Python truthiness of the `installed_parameters` argument
(`if installed_parameters:`): `None` and the empty mapping are falsy,
non-empty mappings are truthy. -/
def dictTruthy (d : Option (List (String × String))) : Bool :=
  match d with
  | none => false
  | some l => decide (l ≠ [])

/-- Embedding of `UpgradeDialog.__init__` (upgrade_dialog.py lines 23 to 94)
as the ordered sequence of attribute accesses it performs on the two
`ParametersGroupBox` instances: for the standard groupbox `setTitle`,
`setLayout`, `setParameters`, `setParametersEnabled` and — only when
`installed_parameters` is truthy — `setParameterValues`; then the same for
the app-only groupbox without `setParametersEnabled`. The first failing
access aborts construction with the raised error. -/
def upgradeDialogInit (installed_parameters : Option (List (String × String))) :
    Except PyAttributeError Unit := do
  groupBoxCall "setTitle"
  groupBoxCall "setLayout"
  groupBoxCall "setParameters"
  groupBoxCall "setParametersEnabled"
  if dictTruthy installed_parameters then groupBoxCall "setParameterValues"
  groupBoxCall "setTitle"
  groupBoxCall "setLayout"
  groupBoxCall "setParameters"
  if dictTruthy installed_parameters then groupBoxCall "setParameterValues"
  pure ()

/-- C9: constructing `UpgradeDialog` with a non-empty `installed_parameters`
mapping raises `AttributeError` on `setParameterValues`, which
`ParametersGroupBox` does not define; with `None` or an empty mapping the
construction succeeds. -/
theorem upgradeDialogInit_attribute_error
    (ip : Option (List (String × String))) :
    (dictTruthy ip = true →
      upgradeDialogInit ip
        = Except.error { attr := "setParameterValues" }) ∧
    (dictTruthy ip = false → upgradeDialogInit ip = Except.ok ()) := by
  constructor
  · intro h
    simp [upgradeDialogInit, h, groupBoxCall, parametersGroupBoxAttrs,
      qGroupBoxInheritedAttrs]
    rfl
  · intro h
    simp [upgradeDialogInit, h, groupBoxCall, parametersGroupBoxAttrs,
      qGroupBoxInheritedAttrs]
    rfl

/-- Witness for C9 at concrete inputs: one installed parameter makes the
constructor raise the `setParameterValues` attribute error; `none` and the
empty mapping construct successfully. -/
theorem upgradeDialogInit_attribute_error_witness :
    upgradeDialogInit (some [("srid", "2056")])
      = Except.error { attr := "setParameterValues" } ∧
    upgradeDialogInit none = Except.ok () ∧
    upgradeDialogInit (some []) = Except.ok () := by
  refine ⟨?_, ?_, ?_⟩
  · exact (upgradeDialogInit_attribute_error (some [("srid", "2056")])).1 rfl
  · exact (upgradeDialogInit_attribute_error none).2 rfl
  · exact (upgradeDialogInit_attribute_error (some [])).2 rfl

/-- The runtime representation of `parameter_definition.type` handled by both
`ParameterWidget` implementations: either a `ParameterType` enum member
(carrying its lowercase string value) or a plain string (possibly a dotted
repr such as "ParameterType.INTEGER"). -/
inductive ParamTypeRepr
  | enumRepr (value : String)
  | strRepr (s : String)
  deriving Repr, DecidableEq

/-- Characters after the last dot of a string (Python
`param_type.split(".")[-1]`), accumulated in reverse. -/
def lastDotComponent : List Char → List Char → List Char
  | [], acc => acc.reverse
  | '.' :: cs, _ => lastDotComponent cs []
  | c :: cs, acc => lastDotComponent cs (c :: acc)

/-- Embedding of the type normalization that appears verbatim in both files
(parameter_widget.py lines 32 to 41 and parameters_groupbox.py lines 29 to
38): an enum member yields its value; a string containing a dot yields its
last dot-component lowercased, otherwise the string lowercased. -/
def normalizeParamType : ParamTypeRepr → String
  | ParamTypeRepr.enumRepr v => v
  | ParamTypeRepr.strRepr s =>
      if s.toList.contains '.' then
        String.mk ((lastDotComponent s.toList []).map Char.toLower)
      else String.mk (s.toList.map Char.toLower)

/-- Kinds of input widget either implementation can build. -/
inductive BuiltWidget
  | checkBox
  | comboBox
  | lineEdit
  | fileWidget
  deriving Repr, DecidableEq

/-- The closures installed as `self.value` by the two implementations,
identified symbolically by what they compute from the widget state. -/
inductive ValueFn
  | isChecked
  | intOfCurrentData
  | floatOfCurrentData
  | currentData
  | intOfTextOrPlaceholder
  | floatOfTextOrPlaceholder
  | textOrPlaceholder
  | filePath
  | textOnly
  deriving Repr, DecidableEq

/-- A constructed parameter widget: the widget kind and its value closure. -/
structure BuiltParamWidget where
  widget : BuiltWidget
  value : ValueFn
  deriving Repr, DecidableEq

/-- Result of a `ParameterWidget` constructor: the built widget, or the
`ValueError` raised on an unknown parameter type. -/
inductive BuildResult
  | ok (w : BuiltParamWidget)
  | valueError
  deriving Repr, DecidableEq

/-- Embedding of the `ParameterWidget` constructor of parameter_widget.py
(lines 22 to 108): boolean builds a checkbox; decimal/integer/text build a
combo box over the enumerated values when present, else a line edit whose
value falls back to the placeholder; path ignores enumerated values and
builds a `QgsFileWidget` returning `filePath()` (or, when the QGIS import is
unavailable, a plain line edit returning `text()` with no fallback). -/
def buildParameterWidget_pw (t : ParamTypeRepr)
    (hasValues qgsAvailable : Bool) : BuildResult :=
  let tv := normalizeParamType t
  if tv = "boolean" then
    BuildResult.ok ⟨BuiltWidget.checkBox, ValueFn.isChecked⟩
  else if tv = "decimal" ∨ tv = "integer" ∨ tv = "text" then
    if hasValues then
      BuildResult.ok ⟨BuiltWidget.comboBox,
        if tv = "integer" then ValueFn.intOfCurrentData
        else if tv = "decimal" then ValueFn.floatOfCurrentData
        else ValueFn.currentData⟩
    else
      BuildResult.ok ⟨BuiltWidget.lineEdit,
        if tv = "integer" then ValueFn.intOfTextOrPlaceholder
        else if tv = "decimal" then ValueFn.floatOfTextOrPlaceholder
        else ValueFn.textOrPlaceholder⟩
  else if tv = "path" then
    if qgsAvailable then
      BuildResult.ok ⟨BuiltWidget.fileWidget, ValueFn.filePath⟩
    else BuildResult.ok ⟨BuiltWidget.lineEdit, ValueFn.textOnly⟩
  else BuildResult.valueError

/-- Embedding of the `ParameterWidget` copy in parameters_groupbox.py (lines
19 to 89): identical to the other implementation except that "path" is
listed together with decimal/integer/text, so a path parameter gets the
text treatment (combo box over enumerated values, else line edit with
placeholder fallback) and there is no file-widget branch. -/
def buildParameterWidget_gb (t : ParamTypeRepr) (hasValues : Bool) :
    BuildResult :=
  let tv := normalizeParamType t
  if tv = "boolean" then
    BuildResult.ok ⟨BuiltWidget.checkBox, ValueFn.isChecked⟩
  else if tv = "decimal" ∨ tv = "integer" ∨ tv = "text" ∨ tv = "path" then
    if hasValues then
      BuildResult.ok ⟨BuiltWidget.comboBox,
        if tv = "integer" then ValueFn.intOfCurrentData
        else if tv = "decimal" then ValueFn.floatOfCurrentData
        else ValueFn.currentData⟩
    else
      BuildResult.ok ⟨BuiltWidget.lineEdit,
        if tv = "integer" then ValueFn.intOfTextOrPlaceholder
        else if tv = "decimal" then ValueFn.floatOfTextOrPlaceholder
        else ValueFn.textOrPlaceholder⟩
  else BuildResult.valueError

/-- Widget state the value closures read: checkbox state, combo current
data, line-edit text and placeholder, and file-widget path. -/
structure WidgetState where
  checked : Bool
  currentData : String
  text : String
  placeholderText : String
  filePath : String
  deriving Repr, DecidableEq

/-- Interpretation of the string-returning value closures over a widget
state (Python `a or b` yields `b` when `a` is the empty string); the
int/float/bool closures return non-string values and are mapped to `none`
here. -/
def evalStringValueFn : ValueFn → WidgetState → Option String
  | ValueFn.currentData, w => some w.currentData
  | ValueFn.textOrPlaceholder, w =>
      some (if w.text = "" then w.placeholderText else w.text)
  | ValueFn.filePath, w => some w.filePath
  | ValueFn.textOnly, w => some w.text
  | _, _ => none

/-- C10 counterexample: for a path parameter the two implementations
disagree. With enumerated values the groupbox copy builds a combo box while
parameter_widget.py builds a file widget; without enumerated values both
build a line edit but install different value closures, and on the same
widget state (empty text, placeholder "/srv/data") the two closures return
different values. -/
theorem parameterWidget_duplicates_disagree_on_path :
    buildParameterWidget_gb (ParamTypeRepr.strRepr "path") true
      ≠ buildParameterWidget_pw (ParamTypeRepr.strRepr "path") true true ∧
    buildParameterWidget_gb (ParamTypeRepr.strRepr "path") false
      = BuildResult.ok ⟨BuiltWidget.lineEdit, ValueFn.textOrPlaceholder⟩ ∧
    buildParameterWidget_pw (ParamTypeRepr.strRepr "path") false false
      = BuildResult.ok ⟨BuiltWidget.lineEdit, ValueFn.textOnly⟩ ∧
    evalStringValueFn ValueFn.textOrPlaceholder
        ⟨false, "", "", "/srv/data", ""⟩
      ≠ evalStringValueFn ValueFn.textOnly ⟨false, "", "", "/srv/data", ""⟩ := by
  refine ⟨?_, ?_, ?_, ?_⟩ <;> decide

/-- C10 amended: the two `ParameterWidget` implementations build the same
widget with the same value closure for every parameter whose normalized type
is not "path" (in particular boolean, integer, decimal and text, with or
without enumerated values); for "path" the groupbox copy applies the text
treatment while parameter_widget.py ignores enumerated values and uses the
file-widget (or bare line edit) treatment. -/
theorem parameterWidget_duplicates_amended (t : ParamTypeRepr)
    (hasValues qgsAvailable : Bool) :
    (normalizeParamType t ≠ "path" →
      buildParameterWidget_pw t hasValues qgsAvailable
        = buildParameterWidget_gb t hasValues) ∧
    (normalizeParamType t = "path" →
      buildParameterWidget_gb t hasValues
        = BuildResult.ok
            ⟨if hasValues then BuiltWidget.comboBox else BuiltWidget.lineEdit,
              if hasValues then ValueFn.currentData
              else ValueFn.textOrPlaceholder⟩ ∧
      buildParameterWidget_pw t hasValues qgsAvailable
        = BuildResult.ok
            (if qgsAvailable then ⟨BuiltWidget.fileWidget, ValueFn.filePath⟩
              else ⟨BuiltWidget.lineEdit, ValueFn.textOnly⟩)) := by
  constructor
  · intro h
    by_cases h1 : normalizeParamType t = "boolean"
    · simp [buildParameterWidget_pw, buildParameterWidget_gb, h1]
    · by_cases h2 : normalizeParamType t = "decimal"
      · simp [buildParameterWidget_pw, buildParameterWidget_gb, h1, h2]
      · by_cases h3 : normalizeParamType t = "integer"
        · simp [buildParameterWidget_pw, buildParameterWidget_gb, h1, h2, h3]
        · by_cases h4 : normalizeParamType t = "text"
          · simp [buildParameterWidget_pw, buildParameterWidget_gb,
              h1, h2, h3, h4]
          · simp [buildParameterWidget_pw, buildParameterWidget_gb,
              h1, h2, h3, h4, h]
  · intro h
    constructor <;>
      · simp [buildParameterWidget_pw, buildParameterWidget_gb, h]
        cases hasValues <;> cases qgsAvailable <;> rfl

/-- Witness for the amended C10 at concrete inputs: an integer parameter
with enumerated values builds the same combo box in both implementations,
and a path parameter without enumerated values splits into the placeholder
line edit on the groupbox side and the file widget on the other. -/
theorem parameterWidget_duplicates_amended_witness :
    buildParameterWidget_pw (ParamTypeRepr.strRepr "ParameterType.INTEGER")
        true true
      = buildParameterWidget_gb (ParamTypeRepr.strRepr "ParameterType.INTEGER")
          true ∧
    buildParameterWidget_gb (ParamTypeRepr.enumRepr "path") false
      = BuildResult.ok ⟨BuiltWidget.lineEdit, ValueFn.textOrPlaceholder⟩ ∧
    buildParameterWidget_pw (ParamTypeRepr.enumRepr "path") false true
      = BuildResult.ok ⟨BuiltWidget.fileWidget, ValueFn.filePath⟩ := by
  refine ⟨?_, ?_, ?_⟩
  · exact (parameterWidget_duplicates_amended
      (ParamTypeRepr.strRepr "ParameterType.INTEGER") true true).1 (by decide)
  · have h := (parameterWidget_duplicates_amended
      (ParamTypeRepr.enumRepr "path") false true).2 rfl
    simpa using h.1
  · have h := (parameterWidget_duplicates_amended
      (ParamTypeRepr.enumRepr "path") false true).2 rfl
    simpa using h.2

end Oqtopus
